import Mathlib

/-!
Formal model of the sales-aggregation and query-filtering core of the
games-sales backend (`backend/games_sales/sales/models.py`).

The Django ORM layer is embedded shallowly:

* model instances (`Rating`, `Game`, `Sale`) become Lean structures with
  `Option` fields for nullable columns; `FloatField` columns are modelled
  by `ℚ` (exact rationals standing in for IEEE floats — none of the
  verified properties depends on float rounding error);
* a queryset is a `List Sale`; `queryset.filter(Q(...))` is `List.filter`
  with the predicate semantics of the corresponding Django lookup
  (`__contains`, `__icontains`, `__lt`, `__gt`, `__exact`), where a
  lookup on a NULL column never matches, as in SQL;
* the pandas DataFrame handed to the analysis helpers is a `DFrame`: a
  list of column names plus a list of rows, each row a total function
  from column name to cell value (`DVal`);
* Python exceptions (`KeyError` from an unknown key in the
  `filters_map` dict, `ValueError` from `int(...)`) become an
  `Except PyError` result.

String primitives (substring test, prefix test, lower-casing, Python
`int()` parsing) are defined over `String.data` character lists so that
they compute by kernel reduction and are amenable to proof.
-/

namespace GS

/-! ### Character-list string primitives -/

/-- `listStarts p s` is true iff the char list `p` is an initial segment
of the char list `s`. -/
def listStarts : List Char → List Char → Bool
  | [], _ => true
  | _ :: _, [] => false
  | a :: as, b :: bs => a == b && listStarts as bs

/-- `listOccurs s pat`: the char list `pat` occurs contiguously inside `s`
(Python `pat in s`, SQL `LIKE '%pat%'`). -/
def listOccurs : List Char → List Char → Bool
  | [], pat => listStarts pat []
  | s@(_ :: t), pat => listStarts pat s || listOccurs t pat

/-- `strStarts p s`: string `p` is a prefix of string `s`. -/
def strStarts (p s : String) : Bool := listStarts p.data s.data

/-- `strOccurs s pat`: `pat` occurs as a contiguous substring of `s`. -/
def strOccurs (s pat : String) : Bool := listOccurs s.data pat.data

/-- ASCII-folding lower-case map, modelling the case folding performed by
SQL `UPPER`/`LOWER` in Django's `__icontains`. -/
def strLower (s : String) : String := ⟨s.data.map Char.toLower⟩

/-- First character is `'-'` (Python `value[0] == '-'` on a non-empty
string; `false` on the empty string). -/
def headIsDash (s : String) : Bool :=
  match s.data with
  | [] => false
  | c :: _ => c == '-'

/-- Drop the first character (Python `value[1:]`). -/
def strTail (s : String) : String := ⟨s.data.drop 1⟩

/-! ### Python `int()` on strings

`int(text)` accepts optional surrounding whitespace, an optional sign and
a non-empty digit run in which single underscores may separate digits; it
raises `ValueError` otherwise.  `pyInt` returns `none` exactly when
`int(text)` raises. -/

/-- Decimal digit test. -/
def isPyDigit (c : Char) : Bool := '0' ≤ c && c ≤ '9'

/-- Whitespace stripped by `int()` (ASCII fragment). -/
def isPyWS (c : Char) : Bool :=
  c == ' ' || c == '\t' || c == '\n' || c == '\x0d' || c == '\x0b' || c == '\x0c'

/-- No two adjacent underscores. -/
def noDoubleUS : List Char → Bool
  | '_' :: '_' :: _ => false
  | _ :: rest => noDoubleUS rest
  | [] => true

/-- Well-formed digit run: non-empty, made of digits and underscores,
starting and ending with a digit, with no `__`. -/
def pyDigitsOk (l : List Char) : Bool :=
  !l.isEmpty && l.all (fun c => isPyDigit c || c == '_') &&
    (match l.head? with | some c => isPyDigit c | none => false) &&
    (match l.getLast? with | some c => isPyDigit c | none => false) &&
    noDoubleUS l

/-- Numeric value of a digit run, ignoring underscores. -/
def digitsToNat (l : List Char) : ℕ :=
  (l.filter isPyDigit).foldl (fun acc c => acc * 10 + (c.toNat - 48)) 0

/-- Model of Python `int(text)`: `some n` on success, `none` when
`int(text)` raises `ValueError`. -/
def pyInt (s : String) : Option ℤ :=
  let t := ((s.data.dropWhile isPyWS).reverse.dropWhile isPyWS).reverse
  match t with
  | '+' :: rest => if pyDigitsOk rest then some (digitsToNat rest) else none
  | '-' :: rest => if pyDigitsOk rest then some (-(digitsToNat rest : ℤ)) else none
  | _ => if pyDigitsOk t then some (digitsToNat t) else none

/-- Modelled from the spec: `core.utils.is_int` (imported by
`sales/models.py` but not part of the analysed sources) tests whether the
search text "is a valid integer"; it succeeds exactly when `int(text)`
does. -/
def is_int (text : String) : Bool := (pyInt text).isSome

/-! ### Data model

`Rating`, `Game`, `Sale` mirror the three Django models.  Nullable
columns (`null=True`) become `Option` fields.  The derived `slug` columns
are omitted: they are computed identifiers used only for routing and no
analysed behaviour reads them. -/

/-- `Rating`: four optional Metacritic statistics (`FloatField`s). -/
structure Rating where
  critic_score : Option ℚ
  critic_count : Option ℚ
  user_score : Option ℚ
  user_count : Option ℚ
deriving DecidableEq

/-- `Game`: name and categorical/text attributes, optional release year,
optional one-to-one `Rating` (`on_delete=SET_NULL`, hence nullable). -/
structure Game where
  name : Option String
  platform : Option String
  publisher : Option String
  developer : Option String
  genre : Option String
  year_of_release : Option ℤ
  esrb_rating : Option String
  rating : Option Rating
deriving DecidableEq

/-- `Sale`: one game plus five optional regional/global sales figures. -/
structure Sale where
  game : Game
  na_sales : Option ℚ
  eu_sales : Option ℚ
  jp_sales : Option ℚ
  other_sales : Option ℚ
  global_sales : Option ℚ
deriving DecidableEq

/-! ### Manager `create` methods

Python `**kwargs` become structures whose fields are
`Option (Option τ)`: the outer `Option` records whether the keyword was
supplied at all, the inner one is the (possibly `None`) supplied value.
`kwargs.get(k, default)` is `Option.getD`; `kwargs.get(k, None)` and
`kwargs.pop(k, None)` collapse to `Option.join`. -/

/-- Keyword arguments accepted by `GameManager.create`. -/
structure GameKwargs where
  name : Option (Option String)
  platform : Option (Option String)
  publisher : Option (Option String)
  developer : Option (Option String)
  genre : Option (Option String)
  year_of_release : Option (Option ℤ)
  esrb_rating : Option (Option String)
  critic_score : Option (Option ℚ)
  critic_count : Option (Option ℚ)
  user_score : Option (Option ℚ)
  user_count : Option (Option ℚ)

/-- `GameManager.create`: builds and saves a fresh `Rating` from the four
rating keywords (each defaulting to `None`), then builds the `Game` with
that rating attached; text attributes default to `''`, the year to
`None`. -/
def GameManager.create (kwargs : GameKwargs) : Game :=
  let rating : Rating :=
    ⟨kwargs.critic_score.join, kwargs.critic_count.join,
      kwargs.user_score.join, kwargs.user_count.join⟩
  ⟨kwargs.name.join,
    kwargs.platform.getD (some ""),
    kwargs.publisher.getD (some ""),
    kwargs.developer.getD (some ""),
    kwargs.genre.getD (some ""),
    kwargs.year_of_release.join,
    kwargs.esrb_rating.getD (some ""),
    some rating⟩

/-- Keyword arguments accepted by `SaleManager.create`: the five sales
keywords are `pop`ped, everything else is forwarded to
`Game.objects.create`. -/
structure SaleKwargs where
  na_sales : Option (Option ℚ)
  eu_sales : Option (Option ℚ)
  jp_sales : Option (Option ℚ)
  other_sales : Option (Option ℚ)
  global_sales : Option (Option ℚ)
  game_kwargs : GameKwargs

/-- `SaleManager.create`: pops the sales keywords (default `None`),
creates the `Game` through `GameManager.create` with the remaining
keywords, then saves the `Sale` around it. -/
def SaleManager.create (kwargs : SaleKwargs) : Sale :=
  let game := GameManager.create kwargs.game_kwargs
  ⟨game, kwargs.na_sales.join, kwargs.eu_sales.join, kwargs.jp_sales.join,
    kwargs.other_sales.join, kwargs.global_sales.join⟩

/-! ### `Sale.order_by_mapping` -/

/-- The seven game-level sort fields (local list `game_fields`). -/
def Sale.game_fields : List String :=
  ["name", "platform", "publisher", "developer", "genre", "esrb_rating",
    "year_of_release"]

/-- The four rating-level sort fields (local list `rating_fields`). -/
def Sale.rating_fields : List String :=
  ["critic_score", "critic_count", "user_score", "user_count"]

/-- `Sale.order_by_mapping(value, default='id')`: empty input falls back
to `default`; a leading `'-'` (descending marker) is stripped, the core
name is mapped through the two field lists (`game__…`, or
`game__rating__…`), everything else passes through unchanged, and the
marker is re-attached.  (When both `value` and `default` are empty the
Python code would raise `IndexError` on `value[0]`; here `headIsDash ""`
is `false` — no analysed property touches that corner.) -/
def Sale.order_by_mapping (value : String) (default : String) : String :=
  let value := if value = "" then default else value
  let in_reverse := headIsDash value
  let value := if in_reverse then strTail value else value
  let value :=
    if value ∈ Sale.game_fields then "game__" ++ value
    else if value ∈ Sale.rating_fields then "game__rating__" ++ value
    else value
  if in_reverse then "-" ++ value else value

/-! ### `Sale.filter_by_params` -/

/-- Python exceptions surfaced by the filter engine: `KeyError` from the
`filters_map` lookup on an unknown parameter name, `ValueError` from
`int(...)` on an unparseable filter value. -/
inductive PyError where
  | keyError (k : String)
  | valueError
deriving DecidableEq

/-- Django `Q(field__contains=v)` on a nullable text column: a NULL value
never matches. -/
def optContains (field : Option String) (v : String) : Bool :=
  match field with
  | none => false
  | some s => strOccurs s v

/-- Django `Q(field__icontains=v)`: case-insensitive containment, NULL
never matches. -/
def optIContains (field : Option String) (v : String) : Bool :=
  match field with
  | none => false
  | some s => strOccurs (strLower s) (strLower v)

/-- One step of the `filters_map` dispatch: the closure selected by the
key `k`, applied to the current queryset.  The `int(params[k])` call
sits inside the closure, so `ValueError` is raised only when the key is
actually processed; an unknown key raises `KeyError` at the dict
lookup. -/
def Sale.applyFilter (sales : List Sale) (k v : String) : Except PyError (List Sale) :=
  match k with
  | "genre" => .ok (sales.filter fun s => optContains s.game.genre v)
  | "esrb_rating" => .ok (sales.filter fun s => optContains s.game.esrb_rating v)
  | "yor_lt" =>
    match pyInt v with
    | some i => .ok (sales.filter fun s =>
        match s.game.year_of_release with
        | none => false
        | some y => decide (y < i))
    | none => .error .valueError
  | "yor_gt" =>
    match pyInt v with
    | some i => .ok (sales.filter fun s =>
        match s.game.year_of_release with
        | none => false
        | some y => decide (i < y))
    | none => .error .valueError
  | "year_of_release" =>
    match pyInt v with
    | some i => .ok (sales.filter fun s =>
        decide (s.game.year_of_release = some i))
    | none => .error .valueError
  | _ => .error (.keyError k)

/-- `Sale.filter_by_params(sales, params)`: iterate over the parameter
mapping in insertion order (a Python dict keeps insertion order, so
`params` is an ordered association list with distinct keys), rebinding
`sales` to the filtered queryset after each step; the first failing step
propagates its exception. -/
def Sale.filter_by_params (sales : List Sale) :
    List (String × String) → Except PyError (List Sale)
  | [] => .ok sales
  | kv :: rest =>
    match Sale.applyFilter sales kv.1 kv.2 with
    | .ok sales' => Sale.filter_by_params sales' rest
    | .error e => .error e

/-! ### `Sale.search_by_text` -/

/-- `Sale.search_by_text(sales, text)`: if the text is a valid integer,
an exact year filter; otherwise a case-insensitive substring search OR-ed
over name, platform, publisher, developer and genre. -/
def Sale.search_by_text (sales : List Sale) (text : String) : List Sale :=
  if is_int text then
    sales.filter fun s => decide (s.game.year_of_release = some ((pyInt text).getD 0))
  else
    sales.filter fun s =>
      optIContains s.game.name text || optIContains s.game.platform text ||
        optIContains s.game.publisher text || optIContains s.game.developer text ||
        optIContains s.game.genre text

/-! ### DataFrame model

The analysis endpoints build a pandas DataFrame from the queryset (in the
view layer) and hand it to the static helpers below.  A cell is `null`
(NaN / missing), a string, or a number. -/

/-- A DataFrame cell. -/
inductive DVal where
  | null
  | str (s : String)
  | num (q : ℚ)
deriving DecidableEq

/-- A DataFrame row: total lookup from column name to cell. -/
def DRow := String → DVal

/-- A DataFrame: its column names and its rows. -/
structure DFrame where
  cols : List String
  rows : List DRow

/-- Numeric view of a cell (`none` for NaN and non-numeric cells —
pandas numeric aggregation skips both). -/
def toNum : DVal → Option ℚ
  | .num q => some q
  | _ => none

/-- Non-null view of a cell (pandas `groupby` drops NaN group keys). -/
def nonNull : DVal → Option DVal
  | .null => none
  | v => some v

/-! ### numpy rounding

`Series.round(d)` rounds half to even (banker's rounding). -/

/-- Round a rational to the nearest integer, halves to even. -/
def rhe (x : ℚ) : ℤ :=
  if x - ⌊x⌋ < 1 / 2 then ⌊x⌋
  else if 1 / 2 < x - ⌊x⌋ then ⌊x⌋ + 1
  else if Even ⌊x⌋ then ⌊x⌋ else ⌊x⌋ + 1

/-- Round to `d` decimal places, halves to even (numpy `round(d)`). -/
def roundTo (d : ℕ) (x : ℚ) : ℚ := (rhe (x * 10 ^ d) : ℚ) / 10 ^ d

/-! ### Top-N aggregation pipeline -/

/-- One element of the list returned by `get_top_fields_list`: the dict
`{field: group_key, 'count': summed_value}` — `fname` is the literal
field name used as the dict key. -/
structure TopEntry where
  fname : String
  key : DVal
  count : ℚ
deriving DecidableEq

/-- `Sale.map_field_to_db_field`: unconditionally prepend the game-join
prefix. -/
def Sale.map_field_to_db_field (field : String) : String := "game__" ++ field

/-- Distinct non-null values of column `col`, i.e. the group keys of
`df.groupby(col)` (NaN keys are dropped).  pandas additionally sorts the
keys; that order is observable only through ties of the subsequent
(unstable, hence unspecified) value sort, on which no analysed property
depends, so key order is left as first-of-last-occurrence order here. -/
def groupKeys (rows : List DRow) (col : String) : List DVal :=
  (rows.filterMap fun r => nonNull (r col)).dedup

/-- `df.groupby(col)[valCol].sum()` for group key `k`: sum of the numeric
entries of `valCol` over the rows whose `col` cell equals `k`; NaN and
missing values are skipped, an all-NaN group sums to `0`. -/
def groupSum (rows : List DRow) (col valCol : String) (k : DVal) : ℚ :=
  (((rows.filter fun r => decide (r col = k)).filterMap
    fun r => toNum (r valCol)).sum)

/-- Comparison used by `sort_values(ascending=…)` on the summed series,
as a relation on (key, sum) pairs. -/
def seriesRel (asc : Bool) (a b : DVal × ℚ) : Prop :=
  (if asc then decide (a.2 ≤ b.2) else decide (b.2 ≤ a.2)) = true

instance seriesRelDec (asc : Bool) : DecidableRel (seriesRel asc) :=
  fun _ _ => instDecidableEqBool _ _

/-- `Sale.get_top_fields_series(df, db_field, sale_type, round=2,
sort_ascending=False)`: group by `db_field`, sum `sale_type` per group,
sort by summed value, round each sum to `rnd` places. -/
def Sale.get_top_fields_series (df : DFrame) (db_field sale_type : String)
    (rnd : ℕ) (sort_ascending : Bool) : List (DVal × ℚ) :=
  let keys := groupKeys df.rows db_field
  let sums := keys.map fun k => (k, groupSum df.rows db_field sale_type k)
  let sorted := List.insertionSort (seriesRel sort_ascending) sums
  sorted.map fun kv => (kv.1, roundTo rnd kv.2)

/-- Python slice `xs[:n]`: the first `n` elements for `n ≥ 0`, all but
the last `|n|` elements for negative `n`. -/
def pySlice {α : Type} (n : ℤ) (xs : List α) : List α :=
  if 0 ≤ n then xs.take n.toNat else xs.take (xs.length - n.natAbs)

/-- `Sale.get_top_fields_list(series, n, field)`: zip the first `n` index
entries with the first `n` values into `{field: key, 'count': value}`
dicts. -/
def Sale.get_top_fields_list (series : List (DVal × ℚ)) (n : ℤ)
    (field : String) : List TopEntry :=
  (pySlice n series).map fun kv => ⟨field, kv.1, kv.2⟩

/-- `Sale.get_top_n_fields_for_sale_type(df, field, sale_type, n)`. -/
def Sale.get_top_n_fields_for_sale_type (df : DFrame) (field sale_type : String)
    (n : ℤ) : List TopEntry :=
  Sale.get_top_fields_list
    (Sale.get_top_fields_series df (Sale.map_field_to_db_field field) sale_type 2 false)
    n field

/-! ### Describer (`df.describe().round(2)`)

pandas `describe()` per numeric column: count of non-null values, mean,
sample standard deviation (ddof = 1), min, linear-interpolation
25th/50th/75th percentiles, max; every statistic other than the count is
NaN when there is no non-null value (and the std also for a single one).
The float square root inside the std is modelled by `Rat.sqrt` (the
rational approximation); no analysed property evaluates it.  The final
`to_json` serialisation is not modelled — the result stays a
column-name → statistics mapping. -/

/-- A statistic cell: NaN marker or a value. -/
inductive DStat where
  | nan
  | val (q : ℚ)
deriving DecidableEq

/-- The statistics row block `describe()` produces for one column. -/
structure ColStats where
  count : ℕ
  mean : DStat
  std : DStat
  min : DStat
  q25 : DStat
  q50 : DStat
  q75 : DStat
  max : DStat
deriving DecidableEq

/-- Linear-interpolation percentile of a non-empty ascending-sorted list
(`p` between `0` and `1`). -/
def percentile (xs : List ℚ) (p : ℚ) : ℚ :=
  let m := xs.length
  let pos := p * ((m : ℚ) - 1)
  let i := (⌊pos⌋).toNat
  let lo := xs.getD i 0
  let hi := xs.getD (i + 1) lo
  lo + (pos - (i : ℚ)) * (hi - lo)

/-- Sample variance with ddof = 1 (denominator `n - 1`). -/
def sampleVar (xs : List ℚ) : ℚ :=
  let mu := xs.sum / (xs.length : ℚ)
  ((xs.map fun x => (x - mu) ^ 2).sum) / ((xs.length : ℚ) - 1)

/-- `describe()` statistics of one column's cells. -/
def colStats (vals : List DVal) : ColStats :=
  let xs := vals.filterMap toNum
  let n := xs.length
  if n = 0 then ⟨0, .nan, .nan, .nan, .nan, .nan, .nan, .nan⟩
  else
    let sorted := List.insertionSort (fun a b : ℚ => decide (a ≤ b) = true) xs
    ⟨n,
      .val (xs.sum / (n : ℚ)),
      if n < 2 then .nan else .val (Rat.sqrt (sampleVar xs)),
      .val (sorted.getD 0 0),
      .val (percentile sorted (1 / 4)),
      .val (percentile sorted (1 / 2)),
      .val (percentile sorted (3 / 4)),
      .val (sorted.getD (n - 1) 0)⟩

/-- `df.describe()`: per-column statistics.  (The view layer builds the
frame from numeric columns only, so all columns are described.) -/
def describe (df : DFrame) : List (String × ColStats) :=
  df.cols.map fun c => (c, colStats (df.rows.map fun r => r c))

/-- `.round(2)` applied to one statistic (NaN stays NaN). -/
def roundStat (d : ℕ) : DStat → DStat
  | .nan => .nan
  | .val q => .val (roundTo d q)

/-- `.round(2)` applied to one column's statistics block (the integral
count is unchanged by rounding). -/
def roundStats (d : ℕ) (st : ColStats) : ColStats :=
  ⟨st.count, roundStat d st.mean, roundStat d st.std, roundStat d st.min,
    roundStat d st.q25, roundStat d st.q50, roundStat d st.q75,
    roundStat d st.max⟩

/-- `Sale.sales_df_description(df) = df.describe().round(2).to_json()`,
up to JSON serialisation. -/
def Sale.sales_df_description (df : DFrame) : List (String × ColStats) :=
  (describe df).map fun p => (p.1, roundStats 2 p.2)

/-! ### Specification-side definitions

Definitions below restate parts of the documented contract in their own
words, to be compared against the functions embedded from the source. -/

/-- The closed vocabulary of filter names accepted by
`Sale.filter_by_params` (the keys of its `filters_map` dict). -/
def Sale.filter_keys : List String :=
  ["genre", "esrb_rating", "yor_lt", "yor_gt", "year_of_release"]

/-- The filter names whose value is parsed with `int(...)`. -/
def Sale.int_filter_keys : List String :=
  ["yor_lt", "yor_gt", "year_of_release"]

/-- The pure predicate denoted by a single `(key, value)` filter
parameter: the documented per-record test of each recognised filter.
Outside the recognised vocabulary, or on an unparseable integer value,
the real engine raises instead of filtering; the `false` returned here is
never relied upon (the theorems using this predicate carry validity
hypotheses). -/
def filterPred (kv : String × String) (s : Sale) : Bool :=
  match kv.1 with
  | "genre" => optContains s.game.genre kv.2
  | "esrb_rating" => optContains s.game.esrb_rating kv.2
  | "yor_lt" =>
    match pyInt kv.2 with
    | some i =>
      match s.game.year_of_release with
      | none => false
      | some y => decide (y < i)
    | none => false
  | "yor_gt" =>
    match pyInt kv.2 with
    | some i =>
      match s.game.year_of_release with
      | none => false
      | some y => decide (i < y)
    | none => false
  | "year_of_release" =>
    match pyInt kv.2 with
    | some i => decide (s.game.year_of_release = some i)
    | none => false
  | _ => false

/-- The documented search predicate: exact year match for integer text,
otherwise case-insensitive containment in any of the five text fields. -/
def searchTextPred (text : String) (s : Sale) : Bool :=
  match pyInt text with
  | some i => decide (s.game.year_of_release = some i)
  | none =>
    optIContains s.game.name text || optIContains s.game.platform text ||
      optIContains s.game.publisher text || optIContains s.game.developer text ||
      optIContains s.game.genre text

/-- Remove a leading descending marker (`-`), the reverse direction of
the marker handling in `order_by_mapping`. -/
def stripMarker (s : String) : String := if headIsDash s then strTail s else s

/-- Remove the join path added by `order_by_mapping`
(`game__rating__` or `game__`). -/
def stripJoin (s : String) : String :=
  if strStarts "game__rating__" s then ⟨s.data.drop 14⟩
  else if strStarts "game__" s then ⟨s.data.drop 6⟩
  else s

/-- The core (marker-free) mapping of `order_by_mapping` as the contract
states it: the seven game fields gain `game__`, the four rating fields
gain `game__rating__`, all other names pass through unchanged. -/
def mapCoreSpec (v : String) : String :=
  if v ∈ Sale.game_fields then "game__" ++ v
  else if v ∈ Sale.rating_fields then "game__rating__" ++ v
  else v

/-! ### Concrete fixtures for witnesses and counterexamples -/

/-- Fixture game: fully populated. -/
def gFix1 : Game :=
  ⟨some "Wii Sports", some "Wii", some "Nintendo", some "Nintendo",
    some "Sports", some 2006, some "E", none⟩

/-- Fixture game: fully populated, different genre and year. -/
def gFix2 : Game :=
  ⟨some "Grand Theft Auto V", some "PS3", some "Take-Two", some "Rockstar",
    some "Action", some 2013, some "M", none⟩

/-- Fixture game: several NULL columns. -/
def gFix3 : Game :=
  ⟨some "Tetris", some "GB", some "Nintendo", none, some "Puzzle", none,
    none, none⟩

/-- Fixture sales records. -/
def sFix1 : Sale := ⟨gFix1, some 41, some 29, some 3, some 8, some 82⟩

/-- Fixture sales records. -/
def sFix2 : Sale := ⟨gFix2, some 7, some 9, some 0, some 4, some 21⟩

/-- Fixture sales records. -/
def sFix3 : Sale := ⟨gFix3, none, none, some 4, none, some 30⟩

/-- Fixture queryset. -/
def salesFix : List Sale := [sFix1, sFix2, sFix3]

/-- Fixture DataFrame row with a genre cell and a global-sales cell. -/
def rowFix (genre : String) (gs : DVal) : DRow :=
  fun c => if c = "game__genre" then .str genre else
    if c = "global_sales" then gs else .null

/-- Fixture DataFrame: three rows, two genre groups
(`Action` sums to `7`, `Sports` to `5`). -/
def dfFix : DFrame :=
  ⟨["game__genre", "global_sales"],
    [rowFix "Action" (.num 3), rowFix "Sports" (.num 5),
      rowFix "Action" (.num 4)]⟩

/-- Keyword-argument fixture with no argument supplied. -/
def gkEmpty : GameKwargs :=
  ⟨none, none, none, none, none, none, none, none, none, none, none⟩

/-! ## Supporting lemmas -/

theorem listStarts_of_append {p q l : List Char}
    (h : listStarts (p ++ q) l = true) : listStarts p l = true := by
  induction p generalizing l with
  | nil => rfl
  | cons a as ih =>
    cases l with
    | nil => simp [listStarts] at h
    | cons b bs =>
      simp only [List.cons_append, listStarts, Bool.and_eq_true] at h ⊢
      exact ⟨h.1, ih h.2⟩

theorem strStarts_rating_of_game {v : String}
    (h : strStarts "game__" v = false) :
    strStarts "game__rating__" v = false := by
  obtain ⟨l⟩ := v
  by_contra hc
  rw [Bool.not_eq_false] at hc
  have hdata : ("game__rating__" : String).data =
      ("game__" : String).data ++ "rating__".data := by decide
  unfold strStarts at hc h
  rw [hdata] at hc
  rw [listStarts_of_append hc] at h
  cases h

theorem headIsDash_game_append (v : String) :
    headIsDash ("game__" ++ v) = false := by
  obtain ⟨l⟩ := v
  rfl

theorem headIsDash_rating_append (v : String) :
    headIsDash ("game__rating__" ++ v) = false := by
  obtain ⟨l⟩ := v
  rfl

theorem headIsDash_dash_append (v : String) :
    headIsDash ("-" ++ v) = true := by
  obtain ⟨l⟩ := v
  rfl

theorem strTail_dash_append (v : String) : strTail ("-" ++ v) = v := by
  obtain ⟨l⟩ := v
  rfl

theorem stripJoin_mapCoreSpec {w : String}
    (hw : strStarts "game__" w = false) :
    stripJoin (mapCoreSpec w) = w := by
  unfold mapCoreSpec
  by_cases h1 : w ∈ Sale.game_fields
  · rw [if_pos h1]
    simp only [Sale.game_fields, List.mem_cons, List.not_mem_nil, or_false] at h1
    rcases h1 with h | h | h | h | h | h | h <;> subst h <;> decide
  · rw [if_neg h1]
    by_cases h2 : w ∈ Sale.rating_fields
    · rw [if_pos h2]
      simp only [Sale.rating_fields, List.mem_cons, List.not_mem_nil, or_false] at h2
      rcases h2 with h | h | h | h <;> subst h <;> decide
    · rw [if_neg h2]
      unfold stripJoin
      rw [strStarts_rating_of_game hw, hw]
      simp

theorem stripMarker_mapCoreSpec {w : String} (hw : headIsDash w = false) :
    stripMarker (mapCoreSpec w) = mapCoreSpec w := by
  unfold mapCoreSpec stripMarker
  by_cases h1 : w ∈ Sale.game_fields
  · rw [if_pos h1, if_neg]
    rw [headIsDash_game_append]
    simp
  · rw [if_neg h1]
    by_cases h2 : w ∈ Sale.rating_fields
    · rw [if_pos h2, if_neg]
      rw [headIsDash_rating_append]
      simp
    · rw [if_neg h2, if_neg]
      rw [hw]
      simp

/-! ## Claims -/

/-- C7: the aggregator's field mapping `Sale.map_field_to_db_field`
returns `'game__' + field` for every field name, unconditionally; in
particular on the rating-joined field `critic_score` it yields
`game__critic_score`, whereas the general mapper `order_by_mapping`
routes the same field through the rating sub-record
(`game__rating__critic_score`). -/
theorem claim_C7_aggregator_mapping_unconditional :
    (∀ field : String, Sale.map_field_to_db_field field = "game__" ++ field)
    ∧ Sale.map_field_to_db_field "critic_score" = "game__critic_score"
    ∧ Sale.order_by_mapping "critic_score" "id" = "game__rating__critic_score"
    ∧ Sale.map_field_to_db_field "critic_score"
        ≠ Sale.order_by_mapping "critic_score" "id" :=
  ⟨fun _ => rfl, rfl, by decide, by decide⟩

/-- C8 counterexample: the round-trip clause fails as universally stated.
For the input `"game__x"` (not in either field list, hence passed through
unchanged) stripping the join prefix from the output yields `"x"`, not
the original name `"game__x"`. -/
theorem claim_C8_counterexample :
    ¬ (stripJoin (stripMarker (Sale.order_by_mapping "game__x" "id"))
        = stripMarker "game__x") := by
  decide

/-- C8 (amended): for every non-empty `value`, `order_by_mapping`
preserves a leading `-` independently of the mapping and maps the
marker-free core through the two field lists exactly as `mapCoreSpec`
states (seven game fields to `game__<field>`, four rating fields to
`game__rating__<field>`, everything else unchanged); and the round trip
(strip the marker, then the join prefix, recovering the marker-free
input) holds provided the marker-free input does not itself already begin
with the join prefix `game__` — the counterexample forces that proviso. -/
theorem claim_C8_order_by_mapping_roundtrip (v d : String) (hv : v ≠ "") :
    (Sale.order_by_mapping v d =
      if headIsDash v then "-" ++ mapCoreSpec (strTail v) else mapCoreSpec v)
    ∧ (strStarts "game__" (stripMarker v) = false →
        stripJoin (stripMarker (Sale.order_by_mapping v d)) = stripMarker v) := by
  have hchar : Sale.order_by_mapping v d =
      if headIsDash v then "-" ++ mapCoreSpec (strTail v) else mapCoreSpec v := by
    unfold Sale.order_by_mapping mapCoreSpec
    rw [if_neg hv]
    cases h : headIsDash v <;> simp [h]
  refine ⟨hchar, fun hp => ?_⟩
  rw [hchar]
  cases h : headIsDash v with
  | false =>
    have e1 : stripMarker v = v := by unfold stripMarker; rw [h]; simp
    rw [e1] at hp
    simp only [Bool.false_eq_true, if_false]
    rw [stripMarker_mapCoreSpec h, stripJoin_mapCoreSpec hp, e1]
  | true =>
    have e1 : stripMarker v = strTail v := by unfold stripMarker; rw [h]; simp
    have e3 : stripMarker ("-" ++ mapCoreSpec (strTail v))
        = mapCoreSpec (strTail v) := by
      unfold stripMarker
      rw [headIsDash_dash_append, strTail_dash_append]
      simp
    rw [e1] at hp
    simp only [eq_self_iff_true, if_true]
    rw [e3, stripJoin_mapCoreSpec hp, e1]

/-- C8 witness: the amended theorem applied at `value = "-critic_score"`
with default `"id"`. -/
theorem claim_C8_witness :
    ("-critic_score" : String) ≠ ""
    ∧ (Sale.order_by_mapping "-critic_score" "id" =
        if headIsDash "-critic_score" then
          "-" ++ mapCoreSpec (strTail "-critic_score")
        else mapCoreSpec "-critic_score")
    ∧ (strStarts "game__" (stripMarker "-critic_score") = false →
        stripJoin (stripMarker (Sale.order_by_mapping "-critic_score" "id"))
          = stripMarker "-critic_score") :=
  ⟨by decide,
    (claim_C8_order_by_mapping_roundtrip "-critic_score" "id" (by decide)).1,
    (claim_C8_order_by_mapping_roundtrip "-critic_score" "id" (by decide)).2⟩

/-! ## Filter engine -/

theorem all_eq_of_perm {α : Type} (f : α → Bool) {l₁ l₂ : List α}
    (h : List.Perm l₁ l₂) : l₁.all f = l₂.all f := by
  induction h with
  | nil => rfl
  | cons a _ ih => simp only [List.all_cons, ih]
  | swap a b l =>
    simp only [List.all_cons, ← Bool.and_assoc, Bool.and_comm (f b) (f a)]
  | trans _ _ ih₁ ih₂ => exact ih₁.trans ih₂

/-- Under valid keys and parseable integer values, `filter_by_params`
succeeds and equals a single conjunctive filter of the per-parameter
predicates. -/
theorem filter_by_params_eq_conj (sales : List Sale)
    (params : List (String × String))
    (hk : ∀ kv ∈ params, kv.1 ∈ Sale.filter_keys)
    (hv : ∀ kv ∈ params, kv.1 ∈ Sale.int_filter_keys → (pyInt kv.2).isSome = true) :
    Sale.filter_by_params sales params =
      .ok (sales.filter fun s => params.all fun kv => filterPred kv s) := by
  induction params generalizing sales with
  | nil => simp [Sale.filter_by_params]
  | cons kv rest ih =>
    obtain ⟨k, v⟩ := kv
    have hk1 := hk (k, v) (List.mem_cons_self _ _)
    have hrestk : ∀ kv ∈ rest, kv.1 ∈ Sale.filter_keys :=
      fun kv h => hk kv (List.mem_cons_of_mem _ h)
    have hrestv : ∀ kv ∈ rest, kv.1 ∈ Sale.int_filter_keys →
        (pyInt kv.2).isSome = true :=
      fun kv h => hv kv (List.mem_cons_of_mem _ h)
    have hstep : ∀ p : Sale → Bool,
        Sale.applyFilter sales k v = .ok (sales.filter p) →
        (∀ s : Sale, filterPred (k, v) s = p s) →
        Sale.filter_by_params sales ((k, v) :: rest) =
          .ok (sales.filter fun s => ((k, v) :: rest).all fun kv => filterPred kv s) := by
      intro p hap hpred
      rw [Sale.filter_by_params, hap]
      show Sale.filter_by_params (sales.filter p) rest = _
      rw [ih _ hrestk hrestv, List.filter_filter]
      refine congrArg Except.ok (List.filter_congr fun s _ => ?_)
      simp only [List.all_cons, hpred, Bool.and_comm]
    simp only [Sale.filter_keys, List.mem_cons, List.not_mem_nil, or_false] at hk1
    rcases hk1 with h | h | h | h | h <;> subst h
    · exact hstep _ rfl (fun s => rfl)
    · exact hstep _ rfl (fun s => rfl)
    · obtain ⟨i, hi⟩ := Option.isSome_iff_exists.mp
        (hv _ (List.mem_cons_self _ _) (by simp [Sale.int_filter_keys]))
      refine hstep (fun s =>
          match s.game.year_of_release with
          | none => false
          | some y => decide (y < i)) ?_ (fun s => ?_)
      · simp only [Sale.applyFilter, hi]
      · simp only [filterPred, hi]
    · obtain ⟨i, hi⟩ := Option.isSome_iff_exists.mp
        (hv _ (List.mem_cons_self _ _) (by simp [Sale.int_filter_keys]))
      refine hstep (fun s =>
          match s.game.year_of_release with
          | none => false
          | some y => decide (i < y)) ?_ (fun s => ?_)
      · simp only [Sale.applyFilter, hi]
      · simp only [filterPred, hi]
    · obtain ⟨i, hi⟩ := Option.isSome_iff_exists.mp
        (hv _ (List.mem_cons_self _ _) (by simp [Sale.int_filter_keys]))
      refine hstep (fun s => decide (s.game.year_of_release = some i)) ?_
        (fun s => ?_)
      · simp only [Sale.applyFilter, hi]
      · simp only [filterPred, hi]

/-- C2: on a parameter mapping whose keys all belong to the filter
vocabulary and whose integer-valued filters parse, `filter_by_params` is
order-independent — any permutation of the (insertion-ordered, duplicate
free) parameter list produces the same result. -/
theorem claim_C2_filter_order_independent (sales : List Sale)
    (params params' : List (String × String))
    (hperm : List.Perm params params')
    (_hnd : (params.map Prod.fst).Nodup)
    (hk : ∀ kv ∈ params, kv.1 ∈ Sale.filter_keys)
    (hv : ∀ kv ∈ params, kv.1 ∈ Sale.int_filter_keys → (pyInt kv.2).isSome = true) :
    Sale.filter_by_params sales params = Sale.filter_by_params sales params' := by
  rw [filter_by_params_eq_conj sales params hk hv,
    filter_by_params_eq_conj sales params'
      (fun kv h => hk kv (hperm.mem_iff.mpr h))
      (fun kv h => hv kv (hperm.mem_iff.mpr h))]
  exact congrArg Except.ok
    (List.filter_congr fun s _ => all_eq_of_perm (fun kv => filterPred kv s) hperm)

/-- C2 witness: the order-independence theorem applied to the fixture
queryset with the two filters `genre=Act`, `yor_gt=2000` in both
orders. -/
theorem claim_C2_witness :
    List.Perm [(("genre" : String), ("Act" : String)), ("yor_gt", "2000")]
      [("yor_gt", "2000"), ("genre", "Act")]
    ∧ ([(("genre" : String), ("Act" : String)), ("yor_gt", "2000")].map
        Prod.fst).Nodup
    ∧ (∀ kv ∈ [(("genre" : String), ("Act" : String)), ("yor_gt", "2000")],
        kv.1 ∈ Sale.filter_keys)
    ∧ (∀ kv ∈ [(("genre" : String), ("Act" : String)), ("yor_gt", "2000")],
        kv.1 ∈ Sale.int_filter_keys → (pyInt kv.2).isSome = true)
    ∧ Sale.filter_by_params salesFix [("genre", "Act"), ("yor_gt", "2000")] =
        Sale.filter_by_params salesFix [("yor_gt", "2000"), ("genre", "Act")] :=
  ⟨List.Perm.swap _ _ _, by decide, by decide, by decide,
    claim_C2_filter_order_independent salesFix _ _ (List.Perm.swap _ _ _)
      (by decide) (by decide) (by decide)⟩

/-- An unknown filter key makes `applyFilter` raise `KeyError` with that
key. -/
theorem applyFilter_of_not_mem (sales : List Sale) {k : String} (v : String)
    (hk : k ∉ Sale.filter_keys) :
    Sale.applyFilter sales k v = .error (.keyError k) := by
  simp only [Sale.filter_keys, List.mem_cons, List.not_mem_nil, or_false,
    not_or] at hk
  obtain ⟨h1, h2, h3, h4, h5⟩ := hk
  rw [Sale.applyFilter.eq_def]
  split <;> simp_all

/-- C4 counterexample: a mapping that contains the unknown key `"zzz"`
but whose earlier entry `yor_lt=abc` fails integer parsing raises
`ValueError`, not the claimed `KeyError`-class error. -/
theorem claim_C4_counterexample :
    Sale.filter_by_params ([] : List Sale) [("yor_lt", "abc"), ("zzz", "1")]
        = .error .valueError
    ∧ ∀ k : String,
        Sale.filter_by_params ([] : List Sale) [("yor_lt", "abc"), ("zzz", "1")]
          ≠ .error (.keyError k) := by
  refine ⟨rfl, fun k h => ?_⟩
  rw [show Sale.filter_by_params ([] : List Sale)
      [("yor_lt", "abc"), ("zzz", "1")] = .error .valueError from rfl] at h
  injection h with h'
  cases h'

/-- C4 (amended): provided every integer-valued filter in the mapping has
a parseable value, a mapping containing any key outside the fixed
vocabulary makes `filter_by_params` fail with a `KeyError`-class error
naming an unknown key — it is never silently ignored.  (Without the
parseability proviso an unparseable integer value processed earlier
pre-empts the lookup error with `ValueError`, as the counterexample
shows.) -/
theorem claim_C4_unknown_key_rejected (sales : List Sale)
    (params : List (String × String))
    (hv : ∀ kv ∈ params, kv.1 ∈ Sale.int_filter_keys → (pyInt kv.2).isSome = true)
    (hbad : ∃ kv ∈ params, kv.1 ∉ Sale.filter_keys) :
    ∃ k, k ∉ Sale.filter_keys ∧
      Sale.filter_by_params sales params = .error (.keyError k) := by
  induction params generalizing sales with
  | nil => simp at hbad
  | cons kv rest ih =>
    obtain ⟨k, v⟩ := kv
    by_cases hk1 : k ∈ Sale.filter_keys
    · have hrest : ∃ kv ∈ rest, kv.1 ∉ Sale.filter_keys := by
        obtain ⟨kv', hmem, hbad'⟩ := hbad
        rcases List.mem_cons.mp hmem with h | h
        · subst h; exact absurd hk1 hbad'
        · exact ⟨kv', h, hbad'⟩
      have hstep : ∀ sales' : List Sale,
          Sale.applyFilter sales k v = .ok sales' →
          ∃ k', k' ∉ Sale.filter_keys ∧
            Sale.filter_by_params sales ((k, v) :: rest) = .error (.keyError k') := by
        intro sales' hap
        obtain ⟨k', hk', hres⟩ := ih sales'
          (fun kv h => hv kv (List.mem_cons_of_mem _ h)) hrest
        refine ⟨k', hk', ?_⟩
        rw [Sale.filter_by_params, hap]
        exact hres
      simp only [Sale.filter_keys, List.mem_cons, List.not_mem_nil, or_false]
        at hk1
      rcases hk1 with h | h | h | h | h <;> subst h
      · exact hstep _ rfl
      · exact hstep _ rfl
      · obtain ⟨i, hi⟩ := Option.isSome_iff_exists.mp
          (hv _ (List.mem_cons_self _ _) (by simp [Sale.int_filter_keys]))
        exact hstep _ (by simp only [Sale.applyFilter, hi]; rfl)
      · obtain ⟨i, hi⟩ := Option.isSome_iff_exists.mp
          (hv _ (List.mem_cons_self _ _) (by simp [Sale.int_filter_keys]))
        exact hstep _ (by simp only [Sale.applyFilter, hi]; rfl)
      · obtain ⟨i, hi⟩ := Option.isSome_iff_exists.mp
          (hv _ (List.mem_cons_self _ _) (by simp [Sale.int_filter_keys]))
        exact hstep _ (by simp only [Sale.applyFilter, hi]; rfl)
    · refine ⟨k, hk1, ?_⟩
      rw [Sale.filter_by_params, applyFilter_of_not_mem sales v hk1]

/-- C4 witness: the amended theorem applied to the mapping
`genre=a, zzz=1`. -/
theorem claim_C4_witness :
    (∀ kv ∈ [(("genre" : String), ("a" : String)), ("zzz", "1")],
        kv.1 ∈ Sale.int_filter_keys → (pyInt kv.2).isSome = true)
    ∧ (∃ kv ∈ [(("genre" : String), ("a" : String)), ("zzz", "1")],
        kv.1 ∉ Sale.filter_keys)
    ∧ (∃ k, k ∉ Sale.filter_keys ∧
        Sale.filter_by_params salesFix [("genre", "a"), ("zzz", "1")]
          = .error (.keyError k)) :=
  ⟨by decide, by decide,
    claim_C4_unknown_key_rejected salesFix _ (by decide) (by decide)⟩

/-- C5 counterexample: a mapping whose first entry is the unknown key
`"zzz"` and which also supplies the unparseable value `yor_lt=abc` raises
`KeyError`, not the claimed `ValueError`-class error. -/
theorem claim_C5_counterexample :
    Sale.filter_by_params ([] : List Sale) [("zzz", "1"), ("yor_lt", "abc")]
        = .error (.keyError "zzz")
    ∧ Sale.filter_by_params ([] : List Sale) [("zzz", "1"), ("yor_lt", "abc")]
        ≠ .error .valueError := by
  refine ⟨rfl, fun h => ?_⟩
  rw [show Sale.filter_by_params ([] : List Sale)
      [("zzz", "1"), ("yor_lt", "abc")] = .error (.keyError "zzz") from rfl] at h
  injection h with h'
  cases h'

/-- C5 (amended): provided every key of the mapping belongs to the filter
vocabulary, supplying a non-integer-parseable value for any of `yor_lt`,
`yor_gt`, `year_of_release` makes `filter_by_params` fail with the
`ValueError`-class error, propagated uncaught.  (Without the
valid-key proviso an unknown key processed earlier pre-empts the parse
error with `KeyError`, as the counterexample shows.) -/
theorem claim_C5_unparseable_value_rejected (sales : List Sale)
    (params : List (String × String))
    (hk : ∀ kv ∈ params, kv.1 ∈ Sale.filter_keys)
    (hbad : ∃ kv ∈ params, kv.1 ∈ Sale.int_filter_keys ∧ pyInt kv.2 = none) :
    Sale.filter_by_params sales params = .error .valueError := by
  induction params generalizing sales with
  | nil => simp at hbad
  | cons kv rest ih =>
    obtain ⟨k, v⟩ := kv
    have hk1 := hk (k, v) (List.mem_cons_self _ _)
    have hstep : ∀ sales' : List Sale,
        Sale.applyFilter sales k v = .ok sales' →
        (∃ kv ∈ rest, kv.1 ∈ Sale.int_filter_keys ∧ pyInt kv.2 = none) →
        Sale.filter_by_params sales ((k, v) :: rest) = .error .valueError := by
      intro sales' hap hrest
      rw [Sale.filter_by_params, hap]
      exact ih sales' (fun kv h => hk kv (List.mem_cons_of_mem _ h)) hrest
    have hrest_of_head_ok : (¬ ((k, v).1 ∈ Sale.int_filter_keys ∧ pyInt v = none)) →
        ∃ kv ∈ rest, kv.1 ∈ Sale.int_filter_keys ∧ pyInt kv.2 = none := by
      intro hnot
      obtain ⟨kv', hmem, hbad'⟩ := hbad
      rcases List.mem_cons.mp hmem with h | h
      · subst h; exact absurd hbad' hnot
      · exact ⟨kv', h, hbad'⟩
    simp only [Sale.filter_keys, List.mem_cons, List.not_mem_nil, or_false]
      at hk1
    rcases hk1 with h | h | h | h | h <;> subst h
    · exact hstep _ rfl (hrest_of_head_ok (by simp [Sale.int_filter_keys]))
    · exact hstep _ rfl (hrest_of_head_ok (by simp [Sale.int_filter_keys]))
    · cases hi : pyInt v with
      | none => rw [Sale.filter_by_params]; simp only [Sale.applyFilter, hi]
      | some i =>
        exact hstep _ (by simp only [Sale.applyFilter, hi]; rfl)
          (hrest_of_head_ok (by simp [hi]))
    · cases hi : pyInt v with
      | none => rw [Sale.filter_by_params]; simp only [Sale.applyFilter, hi]
      | some i =>
        exact hstep _ (by simp only [Sale.applyFilter, hi]; rfl)
          (hrest_of_head_ok (by simp [hi]))
    · cases hi : pyInt v with
      | none => rw [Sale.filter_by_params]; simp only [Sale.applyFilter, hi]
      | some i =>
        exact hstep _ (by simp only [Sale.applyFilter, hi]; rfl)
          (hrest_of_head_ok (by simp [hi]))

/-- C5 witness: the amended theorem applied to the mapping
`genre=a, yor_gt=xyz`. -/
theorem claim_C5_witness :
    (∀ kv ∈ [(("genre" : String), ("a" : String)), ("yor_gt", "xyz")],
        kv.1 ∈ Sale.filter_keys)
    ∧ (∃ kv ∈ [(("genre" : String), ("a" : String)), ("yor_gt", "xyz")],
        kv.1 ∈ Sale.int_filter_keys ∧ pyInt kv.2 = none)
    ∧ Sale.filter_by_params salesFix [("genre", "a"), ("yor_gt", "xyz")]
        = .error .valueError :=
  ⟨by decide, by decide,
    claim_C5_unparseable_value_rejected salesFix _ (by decide) (by decide)⟩

/-! ## Search engine -/

/-- C3: a record is in `search_by_text sales text` iff it is in `sales`
and satisfies the documented search predicate — exact `year_of_release`
match against the integer value of the text when the text parses as an
integer, otherwise a case-insensitive substring match in at least one of
name, platform, publisher, developer, genre (logical OR across the five
fields; NULL fields never match). -/
theorem claim_C3_search_by_text_semantics (sales : List Sale) (text : String)
    (s : Sale) :
    s ∈ Sale.search_by_text sales text ↔
      s ∈ sales ∧ searchTextPred text s = true := by
  unfold Sale.search_by_text searchTextPred is_int
  cases h : pyInt text with
  | some i => simp [h, List.mem_filter]
  | none => simp [h, List.mem_filter]

/-! ## Describer -/

/-- C9: on a record collection with zero rows, `sales_df_description`
yields, for every column, count `0` and the not-a-number marker for mean,
std, min, the three percentiles and max — no exception and no arithmetic
is performed (so the `.round(2)` step is vacuous on the markers). -/
theorem claim_C9_describe_empty_frame (cols : List String) :
    Sale.sales_df_description ⟨cols, []⟩ =
      cols.map (fun c =>
        (c, (⟨0, .nan, .nan, .nan, .nan, .nan, .nan, .nan⟩ : ColStats))) := by
  unfold Sale.sales_df_description describe
  rw [List.map_map]
  rfl

/-! ## Manager creation invariant -/

/-- C10: every `Game` built by `GameManager.create` carries a freshly
created `Rating` (never `none`) whose four statistics equal the supplied
keyword values, each defaulting to `None` when the keyword is absent; in
particular with no rating keywords at all the attached rating is
`⟨none, none, none, none⟩`, and every `Sale` built by
`SaleManager.create` therefore also has a game with a rating attached. -/
theorem claim_C10_create_attaches_rating :
    (∀ k : GameKwargs, (GameManager.create k).rating =
      some ⟨k.critic_score.join, k.critic_count.join, k.user_score.join,
        k.user_count.join⟩)
    ∧ (∀ k : GameKwargs,
        k.critic_score = none ∧ k.critic_count = none ∧
          k.user_score = none ∧ k.user_count = none →
        (GameManager.create k).rating = some ⟨none, none, none, none⟩)
    ∧ (∀ k : SaleKwargs, ((SaleManager.create k).game.rating).isSome = true) :=
  ⟨fun _ => rfl,
    fun k h => by
      rw [show (GameManager.create k).rating =
        some ⟨k.critic_score.join, k.critic_count.join, k.user_score.join,
          k.user_count.join⟩ from rfl, h.1, h.2.1, h.2.2.1, h.2.2.2]
      rfl,
    fun _ => rfl⟩

/-- C10 witness: the invariant applied to the empty keyword set. -/
theorem claim_C10_witness :
    gkEmpty.critic_score = none ∧ gkEmpty.critic_count = none ∧
      gkEmpty.user_score = none ∧ gkEmpty.user_count = none ∧
      (GameManager.create gkEmpty).rating = some ⟨none, none, none, none⟩ :=
  ⟨rfl, rfl, rfl, rfl,
    claim_C10_create_attaches_rating.2.1 gkEmpty ⟨rfl, rfl, rfl, rfl⟩⟩

/-! ## Aggregation pipeline lemmas -/

theorem rhe_mono {x y : ℚ} (h : x ≤ y) : rhe x ≤ rhe y := by
  unfold rhe
  rcases lt_or_eq_of_le (Int.floor_le_floor h) with hlt | heq
  · split_ifs <;> omega
  · rw [← heq]
    have h1 : x - (⌊x⌋ : ℚ) ≤ y - (⌊x⌋ : ℚ) := by linarith
    split_ifs <;> first | omega | (exfalso; linarith)

theorem roundTo_mono (d : ℕ) {x y : ℚ} (h : x ≤ y) : roundTo d x ≤ roundTo d y := by
  unfold roundTo
  have h1 : ((rhe (x * 10 ^ d) : ℚ)) ≤ (rhe (y * 10 ^ d) : ℚ) := by
    exact_mod_cast rhe_mono (mul_le_mul_of_nonneg_right h (by positivity))
  exact (div_le_div_iff_of_pos_right (by positivity : (0 : ℚ) < 10 ^ d)).mpr h1

instance : IsTotal (DVal × ℚ) (seriesRel false) where
  total a b := by
    rcases le_total b.2 a.2 with h | h
    · exact Or.inl (by simp [seriesRel, h])
    · exact Or.inr (by simp [seriesRel, h])

instance : IsTrans (DVal × ℚ) (seriesRel false) where
  trans a b c hab hbc := by
    have h1 : b.2 ≤ a.2 := of_decide_eq_true hab
    have h2 : c.2 ≤ b.2 := of_decide_eq_true hbc
    exact decide_eq_true (le_trans h2 h1)

theorem top_series_length (df : DFrame) (db st : String) (rnd : ℕ) (asc : Bool) :
    (Sale.get_top_fields_series df db st rnd asc).length =
      (groupKeys df.rows db).length := by
  show ((List.insertionSort (seriesRel asc)
      ((groupKeys df.rows db).map fun k => (k, groupSum df.rows db st k))).map
      (fun kv => (kv.1, roundTo rnd kv.2))).length = _
  rw [List.length_map, (List.perm_insertionSort _ _).length_eq, List.length_map]

theorem get_top_n_eq (df : DFrame) (field st : String) (n : ℤ) :
    Sale.get_top_n_fields_for_sale_type df field st n =
      (pySlice n (Sale.get_top_fields_series df
        (Sale.map_field_to_db_field field) st 2 false)).map
        fun kv => (⟨field, kv.1, kv.2⟩ : TopEntry) := rfl

/-- C1: `get_top_n_fields_for_sale_type` with a non-negative `n` returns
an ordered sequence of at most `n` entries `{field: key, 'count': c}`,
one per distinct (non-null) group key: the length is `min n` (number of
groups); each entry carries the literal field name, a group key of the
mapped column, and as count the group's null-skipping `sale_type` sum
rounded to two decimals; counts are in descending order; keys are not
repeated; and the selected groups dominate every omitted group's
(unrounded) sum — i.e. the first `n` groups of the descending sort. -/
theorem claim_C1_top_n_aggregation (df : DFrame) (field sale_type : String)
    (n : ℕ) :
    (Sale.get_top_n_fields_for_sale_type df field sale_type (n : ℤ)).length
        = min n (groupKeys df.rows (Sale.map_field_to_db_field field)).length
    ∧ (∀ e ∈ Sale.get_top_n_fields_for_sale_type df field sale_type (n : ℤ),
        e.fname = field
          ∧ e.key ∈ groupKeys df.rows (Sale.map_field_to_db_field field)
          ∧ e.count = roundTo 2
              (groupSum df.rows (Sale.map_field_to_db_field field) sale_type
                e.key))
    ∧ List.Pairwise (fun a b : TopEntry => b.count ≤ a.count)
        (Sale.get_top_n_fields_for_sale_type df field sale_type (n : ℤ))
    ∧ ((Sale.get_top_n_fields_for_sale_type df field sale_type (n : ℤ)).map
        TopEntry.key).Nodup
    ∧ (∀ k ∈ groupKeys df.rows (Sale.map_field_to_db_field field),
        k ∉ (Sale.get_top_n_fields_for_sale_type df field sale_type (n : ℤ)).map
          TopEntry.key →
        ∀ e ∈ Sale.get_top_n_fields_for_sale_type df field sale_type (n : ℤ),
          groupSum df.rows (Sale.map_field_to_db_field field) sale_type k ≤
            groupSum df.rows (Sale.map_field_to_db_field field) sale_type
              e.key) := by
  set db := Sale.map_field_to_db_field field with hdb
  have hres : Sale.get_top_n_fields_for_sale_type df field sale_type (n : ℤ) =
      (((List.insertionSort (seriesRel false)
        ((groupKeys df.rows db).map fun k =>
          (k, groupSum df.rows db sale_type k))).map
        (fun kv => (kv.1, roundTo 2 kv.2))).take n).map
        (fun kv => (⟨field, kv.1, kv.2⟩ : TopEntry)) := by
    rw [get_top_n_eq]
    congr 1
  set keys := groupKeys df.rows db with hkeys
  set sums := keys.map (fun k => (k, groupSum df.rows db sale_type k)) with hsums
  set sorted := List.insertionSort (seriesRel false) sums with hsorted
  set series := sorted.map (fun kv => (kv.1, roundTo 2 kv.2)) with hseries
  have hperm : List.Perm sorted sums := List.perm_insertionSort _ _
  have hpw : List.Pairwise (fun a b : DVal × ℚ => b.2 ≤ a.2) sorted :=
    List.Pairwise.imp (fun {a b} h => of_decide_eq_true h)
      (List.sorted_insertionSort (seriesRel false) sums)
  have hkeysnd : keys.Nodup := List.nodup_dedup _
  have hsums_fst : sums.map Prod.fst = keys := by
    rw [hsums, List.map_map]
    exact List.map_id _
  have hmem_sums : ∀ kv ∈ sums,
      kv.1 ∈ keys ∧ kv.2 = groupSum df.rows db sale_type kv.1 := by
    intro kv h
    rw [hsums] at h
    obtain ⟨k, hk, rfl⟩ := List.mem_map.mp h
    exact ⟨hk, rfl⟩
  have hlen_series : series.length = keys.length := by
    rw [hseries, List.length_map, hperm.length_eq, hsums, List.length_map]
  have hkeymap : ∀ m : ℕ,
      (((series.take m).map (fun kv => (⟨field, kv.1, kv.2⟩ : TopEntry))).map
        TopEntry.key) = (sorted.take m).map Prod.fst := by
    intro m
    rw [hseries, ← List.map_take, List.map_map, List.map_map]
    rfl
  refine ⟨?_, ?_, ?_, ?_, ?_⟩
  · rw [hres, List.length_map, List.length_take, hlen_series]
  · intro e he
    rw [hres] at he
    obtain ⟨kv, hkv, rfl⟩ := List.mem_map.mp he
    have h2 : kv ∈ series := List.mem_of_mem_take hkv
    rw [hseries] at h2
    obtain ⟨kv', hkv', rfl⟩ := List.mem_map.mp h2
    obtain ⟨hk1, hk2⟩ := hmem_sums kv' (hperm.subset hkv')
    exact ⟨rfl, hk1, by rw [hk2]⟩
  · rw [hres]
    have h1 : List.Pairwise (fun a b : DVal × ℚ => b.2 ≤ a.2) series := by
      rw [hseries]
      exact List.pairwise_map.mpr (hpw.imp fun {a b} h => roundTo_mono 2 h)
    have h2 : List.Pairwise (fun a b : DVal × ℚ => b.2 ≤ a.2) (series.take n) :=
      h1.sublist (List.take_sublist _ _)
    exact List.pairwise_map.mpr (h2.imp fun {a b} h => h)
  · rw [hres, hkeymap n]
    have h1 : (sorted.map Prod.fst).Nodup :=
      ((hperm.map Prod.fst).symm).nodup (by rw [hsums_fst]; exact hkeysnd)
    exact h1.sublist ((List.take_sublist n sorted).map Prod.fst)
  · intro k hk hknot e he
    rw [hres] at he
    obtain ⟨kv, hkv, rfl⟩ := List.mem_map.mp he
    rw [hseries, ← List.map_take] at hkv
    obtain ⟨kv', hkv', rfl⟩ := List.mem_map.mp hkv
    obtain ⟨_, hk2⟩ := hmem_sums kv'
      (hperm.subset (List.mem_of_mem_take hkv'))
    have hkpair : (k, groupSum df.rows db sale_type k) ∈ sorted := by
      apply hperm.mem_iff.mpr
      rw [hsums]
      exact List.mem_map.mpr ⟨k, hk, rfl⟩
    have hsplit : (k, groupSum df.rows db sale_type k) ∈ sorted.take n ∨
        (k, groupSum df.rows db sale_type k) ∈ sorted.drop n := by
      rw [← List.mem_append, List.take_append_drop]
      exact hkpair
    rcases hsplit with hin | hin
    · exfalso
      apply hknot
      rw [hres, hkeymap n]
      exact List.mem_map.mpr ⟨_, hin, rfl⟩
    · have hpw2 : List.Pairwise (fun a b : DVal × ℚ => b.2 ≤ a.2)
          (sorted.take n ++ sorted.drop n) := by
        rw [List.take_append_drop]
        exact hpw
      have hle := (List.pairwise_append.mp hpw2).2.2 kv' hkv' _ hin
      rw [hk2] at hle
      exact hle

/-- C6 (amended): `get_top_n_fields_for_sale_type` returns all groups
when `n` is at least the number of distinct groups, the empty sequence
when `n = 0`, and — contrary to the claimed `ValueError` — silently
applies Python slice semantics to a negative `n`, returning all but the
last `|n|` groups. -/
theorem claim_C6_top_n_edge_cases (df : DFrame) (field sale_type : String) :
    (∀ n : ℤ,
      ((groupKeys df.rows (Sale.map_field_to_db_field field)).length : ℤ) ≤ n →
      (Sale.get_top_n_fields_for_sale_type df field sale_type n).length =
        (groupKeys df.rows (Sale.map_field_to_db_field field)).length)
    ∧ Sale.get_top_n_fields_for_sale_type df field sale_type 0 = []
    ∧ (∀ n : ℤ, n < 0 →
      (Sale.get_top_n_fields_for_sale_type df field sale_type n).length =
        (groupKeys df.rows (Sale.map_field_to_db_field field)).length
          - n.natAbs) := by
  have hs := top_series_length df (Sale.map_field_to_db_field field) sale_type 2 false
  refine ⟨fun n hn => ?_, ?_, fun n hn => ?_⟩
  · rw [get_top_n_eq, List.length_map]
    simp only [pySlice, if_pos (le_trans (Int.natCast_nonneg _) hn)]
    rw [List.take_of_length_le (by omega)]
    exact hs
  · rw [get_top_n_eq]
    simp [pySlice]
  · rw [get_top_n_eq, List.length_map]
    simp only [pySlice, if_neg (not_le.mpr hn)]
    rw [List.length_take]
    omega

/-- Concrete evaluation of the summed, sorted, rounded series on the
fixture frame: `Action` sums to `7`, `Sports` to `5`. -/
theorem series_eval :
    Sale.get_top_fields_series dfFix "game__genre" "global_sales" 2 false =
      [(.str "Action", 7), (.str "Sports", 5)] := by
  have hA : groupSum dfFix.rows "game__genre" "global_sales" (.str "Action") = 7 := by
    unfold groupSum
    rw [show ((dfFix.rows.filter fun r =>
        decide (r "game__genre" = DVal.str "Action")).filterMap
      fun r => toNum (r "global_sales")) = [3, 4] from by decide]
    norm_num
  have hS : groupSum dfFix.rows "game__genre" "global_sales" (.str "Sports") = 5 := by
    unfold groupSum
    rw [show ((dfFix.rows.filter fun r =>
        decide (r "game__genre" = DVal.str "Sports")).filterMap
      fun r => toNum (r "global_sales")) = [5] from by decide]
    norm_num
  show (List.insertionSort (seriesRel false)
      ((groupKeys dfFix.rows "game__genre").map fun k =>
        (k, groupSum dfFix.rows "game__genre" "global_sales" k))).map
      (fun kv => (kv.1, roundTo 2 kv.2)) = _
  rw [show groupKeys dfFix.rows "game__genre" = [.str "Sports", .str "Action"]
    from by decide]
  simp only [List.map_cons, List.map_nil, hA, hS]
  rw [show List.insertionSort (seriesRel false)
      [(DVal.str "Sports", (5 : ℚ)), (DVal.str "Action", 7)]
      = [(DVal.str "Action", 7), (DVal.str "Sports", 5)] from by decide]
  simp only [List.map_cons, List.map_nil]
  norm_num [roundTo, rhe, Int.fract]

/-- C6 counterexample: on the two-group fixture, `n = -1` does not raise
any `ValueError`-class error — the code evaluates to the data slice
"all groups but the last one" (Python slice-from-the-end semantics). -/
theorem claim_C6_counterexample :
    Sale.get_top_n_fields_for_sale_type dfFix "genre" "global_sales" (-1) =
      [⟨"genre", DVal.str "Action", 7⟩] := by
  show Sale.get_top_fields_list
    (Sale.get_top_fields_series dfFix "game__genre" "global_sales" 2 false)
    (-1) "genre" = _
  rw [series_eval]
  decide

/-- C6 witness: the amended theorem applied to the fixture frame at
`n = 5` (more than the two groups) and `n = -1`. -/
theorem claim_C6_witness :
    ((groupKeys dfFix.rows (Sale.map_field_to_db_field "genre")).length : ℤ) ≤ 5
    ∧ (Sale.get_top_n_fields_for_sale_type dfFix "genre" "global_sales" 5).length
        = (groupKeys dfFix.rows (Sale.map_field_to_db_field "genre")).length
    ∧ Sale.get_top_n_fields_for_sale_type dfFix "genre" "global_sales" 0 = []
    ∧ ((-1 : ℤ) < 0)
    ∧ (Sale.get_top_n_fields_for_sale_type dfFix "genre" "global_sales" (-1)).length
        = (groupKeys dfFix.rows (Sale.map_field_to_db_field "genre")).length
          - (-1 : ℤ).natAbs :=
  ⟨by decide,
    (claim_C6_top_n_edge_cases dfFix "genre" "global_sales").1 5 (by decide),
    (claim_C6_top_n_edge_cases dfFix "genre" "global_sales").2.1,
    by decide,
    (claim_C6_top_n_edge_cases dfFix "genre" "global_sales").2.2 (-1) (by decide)⟩

/-- C1 witness: the aggregation theorem applied to the fixture frame at
`n = 1`, instantiating the inner quantifiers at the omitted group
`Sports` and the returned entry `{genre: Action, count: 7}`. -/
theorem claim_C1_witness :
    DVal.str "Sports" ∈ groupKeys dfFix.rows (Sale.map_field_to_db_field "genre")
    ∧ DVal.str "Sports" ∉
        (Sale.get_top_n_fields_for_sale_type dfFix "genre" "global_sales"
          ((1 : ℕ) : ℤ)).map TopEntry.key
    ∧ (⟨"genre", DVal.str "Action", 7⟩ : TopEntry) ∈
        Sale.get_top_n_fields_for_sale_type dfFix "genre" "global_sales"
          ((1 : ℕ) : ℤ)
    ∧ groupSum dfFix.rows (Sale.map_field_to_db_field "genre") "global_sales"
        (DVal.str "Sports") ≤
      groupSum dfFix.rows (Sale.map_field_to_db_field "genre") "global_sales"
        (DVal.str "Action") := by
  have hres : Sale.get_top_n_fields_for_sale_type dfFix "genre" "global_sales"
      ((1 : ℕ) : ℤ) = [⟨"genre", DVal.str "Action", 7⟩] := by
    show Sale.get_top_fields_list
      (Sale.get_top_fields_series dfFix "game__genre" "global_sales" 2 false)
      ((1 : ℕ) : ℤ) "genre" = _
    rw [series_eval]
    decide
  have h1 : DVal.str "Sports" ∈
      groupKeys dfFix.rows (Sale.map_field_to_db_field "genre") := by decide
  have h2 : DVal.str "Sports" ∉
      (Sale.get_top_n_fields_for_sale_type dfFix "genre" "global_sales"
        ((1 : ℕ) : ℤ)).map TopEntry.key := by
    rw [hres]
    decide
  have h3 : (⟨"genre", DVal.str "Action", 7⟩ : TopEntry) ∈
      Sale.get_top_n_fields_for_sale_type dfFix "genre" "global_sales"
        ((1 : ℕ) : ℤ) := by
    rw [hres]
    exact List.mem_singleton.mpr rfl
  exact ⟨h1, h2, h3,
    (claim_C1_top_n_aggregation dfFix "genre" "global_sales" 1).2.2.2.2
      (DVal.str "Sports") h1 h2 ⟨"genre", DVal.str "Action", 7⟩ h3⟩

end GS
